import Mathlib

/-!
# AssetSync backend — auth subsystem, shallow embedding

A shallow embedding of the JWT-based session/auth subsystem of the
assetsync-backend repository, together with proofs of the spec's claims
about it.

Embedded source files:
* `src/lib/auth/jwt.ts` — token codec (`generateAccessToken`,
  `generateRefreshToken`, `generateTokenPair`, `verifyToken`);
* `src/lib/auth/passwords.ts` — password hasher (`hashPassword`,
  `verifyPassword`), idealised: bcrypt is an external library, so the
  digest is modelled as the (salt, plaintext) pair and `verifyPassword`
  as comparison of plaintexts — the ideal collision-free hash;
* `src/middleware/auth.ts` — `sessionMiddleware` (the strict
  session-validation path, whose DB query is the spec's `findActive`);
* the authentication routes file (`registerRoute`, `loginRoute`,
  `logoutRoute`, `refreshTokenRoute`, `passwordResetRequestRoute`,
  `passwordResetRoute`, `meRoute`).

Modelling conventions, uniform across the file:
* The database is an explicit `Db` value (lists of rows, insertion by
  append, updates by `map`, deletes by `filter`), threaded through each
  route; `db.select().where(p).limit(1)` becomes `List.find? p`.
* Time is a single `Nat` of seconds (`now`); the source mixes
  millisecond `Date` arithmetic for row expiries with second-granularity
  JWT claims, but every comparison in the source is within one unit
  system, so one clock is faithful.
* Randomness (bcrypt salts, reset/verification tokens, fresh row ids)
  and the environment secret are oracle parameters of each route.
* `HTTPException(status, {message})` thrown by a route becomes an
  `Except.error (AuthError.httpEx status message)` result; the
  `Bearer`-header extraction is abstracted to an `Option` token argument.
* The HMAC-SHA256 signature produced by `hono/jwt`'s `sign` (an external
  library) is idealised as the injective pair (secret, signed payload):
  the ideal MAC, recomputed and compared on `verify` exactly as the
  library does.
-/

/-- Token purpose discriminator: the `tokenType` claim
(`'access' | 'refresh'` in `src/lib/auth/jwt.ts`). -/
inductive TokenType where
  | access
  | refresh
deriving DecidableEq, Repr

/-- Account kind: the `type` column (`'personal' | 'professional'`). -/
inductive UserType where
  | personal
  | professional
deriving DecidableEq, Repr

/-- The `UserJWTPayload` interface of `src/lib/auth/jwt.ts`: the signed
claim set (identity, purpose, issued-at, expires-at). -/
structure UserJWTPayload where
  userId : String
  email : String
  type : UserType
  tokenType : TokenType
  iat : Nat
  exp : Nat
deriving DecidableEq, Repr

/-- A signed token: algorithm header, claim set, and MAC tag. The tag of
an honestly signed token is `hmacTag secret payload`. -/
structure Jwt where
  alg : String
  payload : UserJWTPayload
  tag : String × UserJWTPayload
deriving DecidableEq, Repr

/-- Ideal MAC: HMAC-SHA256 keyed by `secret` over the serialized payload,
idealised as the injective pair (no collisions across keys or messages). -/
def hmacTag (secret : String) (p : UserJWTPayload) : String × UserJWTPayload :=
  (secret, p)

/-- `JWT_ALGORITHM = 'HS256'` (`src/lib/auth/jwt.ts` line 11). -/
def JWT_ALGORITHM : String := "HS256"

/-- `ACCESS_TOKEN_EXPIRES_IN = 60 * 15` seconds (line 12). -/
def ACCESS_TOKEN_EXPIRES_IN : Nat := 60 * 15

/-- `REFRESH_TOKEN_EXPIRES_IN = 60 * 60 * 24 * 7` seconds (line 13). -/
def REFRESH_TOKEN_EXPIRES_IN : Nat := 60 * 60 * 24 * 7

/-- `hono/jwt`'s `sign(payload, secret, 'HS256')`: attach the algorithm
header and the MAC over the payload. -/
def signJwt (p : UserJWTPayload) (secret : String) : Jwt :=
  { alg := JWT_ALGORITHM, payload := p, tag := hmacTag secret p }

/-- `generateAccessToken` (`src/lib/auth/jwt.ts` lines 31–48): claim set
with `tokenType = 'access'`, `iat = now`, `exp = now + ACCESS_TOKEN_EXPIRES_IN`,
signed with the secret. -/
def generateAccessToken (userId email : String) (userType : UserType)
    (secret : String) (now : Nat) : Jwt :=
  signJwt
    { userId := userId, email := email, type := userType,
      tokenType := .access, iat := now, exp := now + ACCESS_TOKEN_EXPIRES_IN }
    secret

/-- `generateRefreshToken` (lines 53–70): same, with `tokenType = 'refresh'`
and the 7-day ttl. -/
def generateRefreshToken (userId email : String) (userType : UserType)
    (secret : String) (now : Nat) : Jwt :=
  signJwt
    { userId := userId, email := email, type := userType,
      tokenType := .refresh, iat := now, exp := now + REFRESH_TOKEN_EXPIRES_IN }
    secret

/-- `generateTokenPair` (lines 75–87): an access and a refresh token for
the same identity, signed with the same secret at the same instant. -/
def generateTokenPair (userId email : String) (userType : UserType)
    (secret : String) (now : Nat) : Jwt × Jwt :=
  (generateAccessToken userId email userType secret now,
   generateRefreshToken userId email userType secret now)

/-- `verifyToken` (lines 92–102), which calls `hono/jwt`'s
`verify(token, secret, 'HS256')`: reject on algorithm mismatch, on a MAC
that does not equal the recomputation under `secret`, or on
`exp < now` (the library's expiry check); otherwise return the claims.
`none` stands for the thrown `Invalid token` error. -/
def verifyToken (t : Jwt) (secret : String) (now : Nat) : Option UserJWTPayload :=
  if t.alg ≠ JWT_ALGORITHM then none
  else if t.tag ≠ hmacTag secret t.payload then none
  else if t.payload.exp < now then none
  else some t.payload

/-- Ideal bcrypt digest (`src/lib/auth/passwords.ts`): the salted hash is
modelled as the (salt, plaintext) pair — collision-free one-way function. -/
structure Digest where
  salt : Nat
  pw : String
deriving DecidableEq, Repr

/-- `hashPassword` (`passwords.ts` lines 16–24): salted adaptive hash;
the salt comes from the randomness oracle. -/
def hashPassword (password : String) (salt : Nat) : Digest :=
  { salt := salt, pw := password }

/-- `verifyPassword` (`passwords.ts` lines 29–35): `bcrypt.compare`
succeeds exactly when the plaintext matches the digest's preimage. -/
def verifyPassword (password : String) (d : Digest) : Bool :=
  password == d.pw

/-- A row of the `users` table (columns the auth subsystem touches). -/
structure UserRow where
  id : String
  email : String
  passwordHash : Digest
  firstName : String
  lastName : String
  type : UserType
  emailVerified : Bool
  avatar : Option String
  createdAt : Nat
  updatedAt : Nat
  lastLoginAt : Option Nat
  deletedAt : Option Nat
deriving DecidableEq, Repr

/-- A row of the `sessions` table: the issued access token (unique),
owning user, and expiry. -/
structure SessionRow where
  userId : String
  token : Jwt
  expiresAt : Nat
deriving DecidableEq, Repr

/-- A row of the `password_resets` table: one-time reset ticket. -/
structure ResetRow where
  id : Nat
  userId : String
  token : String
  expiresAt : Nat
  usedAt : Option Nat
deriving DecidableEq, Repr

/-- The relational store: the three tables the auth subsystem reads and
writes. Inserts append; updates map; deletes filter. -/
structure Db where
  users : List UserRow
  sessions : List SessionRow
  passwordResets : List ResetRow
deriving DecidableEq, Repr

/-- A thrown `HTTPException(status, {message})`, as surfaced to the
caller after the route boundary translates it. -/
inductive AuthError where
  | httpEx (status : Nat) (message : String)
deriving DecidableEq, Repr

/-- The public user object returned by `registerRoute`'s `.returning`
projection (id, email, names, type, createdAt). -/
structure RegisterUserView where
  id : String
  email : String
  firstName : String
  lastName : String
  type : UserType
  createdAt : Nat
deriving DecidableEq, Repr

/-- The HTTP 201 body of `registerRoute`: user view, token pair, and the
plaintext `verificationToken` field the source returns directly. -/
structure RegisterSuccess where
  status : Nat
  message : String
  user : RegisterUserView
  accessToken : Jwt
  refreshToken : Jwt
  verificationToken : String
deriving DecidableEq, Repr

/-- `registerRoute` (auth routes file, lines 31–119). Oracle inputs:
`newId` (DB-generated uuid), `salt` (bcrypt), `vtok` (verification
token). Duplicate-email check does not filter soft-deleted rows, as in
the source. On success inserts the user, inserts one session row for the
access token with a 15-minute expiry, and returns 201. -/
def registerRoute (db : Db) (email password firstName lastName : String)
    (type : UserType) (secret : String) (now : Nat)
    (newId : String) (salt : Nat) (vtok : String) :
    Except AuthError RegisterSuccess × Db :=
  match db.users.find? (fun u => u.email == email) with
  | some _ => (.error (.httpEx 409 "User with this email already exists"), db)
  | none =>
    let passwordHash := hashPassword password salt
    let user : UserRow :=
      { id := newId, email := email, passwordHash := passwordHash,
        firstName := firstName, lastName := lastName, type := type,
        emailVerified := false, avatar := none,
        createdAt := now, updatedAt := now,
        lastLoginAt := none, deletedAt := none }
    let pair := generateTokenPair newId email type secret now
    let session : SessionRow :=
      { userId := newId, token := pair.1, expiresAt := now + 15 * 60 }
    (.ok { status := 201, message := "User registered successfully",
           user := { id := newId, email := email, firstName := firstName,
                     lastName := lastName, type := type, createdAt := now },
           accessToken := pair.1, refreshToken := pair.2,
           verificationToken := vtok },
     { db with users := db.users ++ [user],
               sessions := db.sessions ++ [session] })

/-- The public user object in `loginRoute`'s 200 body. -/
structure LoginUserView where
  id : String
  email : String
  firstName : String
  lastName : String
  type : UserType
  emailVerified : Bool
deriving DecidableEq, Repr

/-- The HTTP 200 body of `loginRoute`. -/
structure LoginSuccess where
  message : String
  user : LoginUserView
  accessToken : Jwt
  refreshToken : Jwt
deriving DecidableEq, Repr

/-- `loginRoute` (auth routes file, lines 124–216): find the user by
email; absent or soft-deleted → generic 401; wrong password → the same
generic 401; on success issue a token pair, insert a session row, and
set `lastLoginAt = now`. -/
def loginRoute (db : Db) (email password : String) (secret : String)
    (now : Nat) : Except AuthError LoginSuccess × Db :=
  match db.users.find? (fun u => u.email == email) with
  | none => (.error (.httpEx 401 "Invalid email or password"), db)
  | some user =>
    if user.deletedAt.isSome then
      (.error (.httpEx 401 "Invalid email or password"), db)
    else if ¬ verifyPassword password user.passwordHash then
      (.error (.httpEx 401 "Invalid email or password"), db)
    else
      let pair := generateTokenPair user.id user.email user.type secret now
      let session : SessionRow :=
        { userId := user.id, token := pair.1, expiresAt := now + 15 * 60 }
      (.ok { message := "Login successful",
             user := { id := user.id, email := user.email,
                       firstName := user.firstName, lastName := user.lastName,
                       type := user.type, emailVerified := user.emailVerified },
             accessToken := pair.1, refreshToken := pair.2 },
       { db with
           sessions := db.sessions ++ [session],
           users := db.users.map (fun u =>
             if u.id == user.id then { u with lastLoginAt := some now } else u) })

/-- The always-200 body of `logoutRoute`. -/
structure LogoutResponse where
  success : Bool
  message : String
deriving DecidableEq, Repr

/-- `logoutRoute` (auth routes file, lines 221–250): with no bearer
header, return success untouched; otherwise delete every session row
whose token equals the presented one and return success. -/
def logoutRoute (db : Db) (bearer : Option Jwt) : LogoutResponse × Db :=
  match bearer with
  | none => ({ success := true, message := "Already logged out" }, db)
  | some token =>
    ({ success := true, message := "Logout successful" },
     { db with sessions := db.sessions.filter (fun s => ¬ s.token == token) })

/-- The HTTP 200 body of `refreshTokenRoute`: the new token pair. -/
structure RefreshSuccess where
  accessToken : Jwt
  refreshToken : Jwt
deriving DecidableEq, Repr

/-- `refreshTokenRoute` (auth routes file, lines 255–328): verify the
presented token (any verification failure is caught and surfaced as the
generic 401); require `tokenType = 'refresh'`; re-check account
liveness; issue a new pair and insert one session row for the new
access token. No session row is deleted or updated. -/
def refreshTokenRoute (db : Db) (refreshToken : Jwt) (secret : String)
    (now : Nat) : Except AuthError RefreshSuccess × Db :=
  match verifyToken refreshToken secret now with
  | none => (.error (.httpEx 401 "Invalid or expired refresh token"), db)
  | some payload =>
    if payload.tokenType ≠ .refresh then
      (.error (.httpEx 401 "Invalid token type"), db)
    else
      match db.users.find? (fun u => u.id == payload.userId) with
      | none => (.error (.httpEx 401 "User not found"), db)
      | some user =>
        if user.deletedAt.isSome then
          (.error (.httpEx 401 "User not found"), db)
        else
          let pair := generateTokenPair user.id user.email user.type secret now
          let session : SessionRow :=
            { userId := user.id, token := pair.1, expiresAt := now + 15 * 60 }
          (.ok { accessToken := pair.1, refreshToken := pair.2 },
           { db with sessions := db.sessions ++ [session] })

/-- The HTTP 200 body of `passwordResetRequestRoute`: always
`success = true` with the generic message; when the email exists the
source additionally returns the plaintext `resetToken` field (marked
`Remove in production`). -/
structure ResetRequestResponse where
  success : Bool
  message : String
  resetToken : Option String
deriving DecidableEq, Repr

/-- `passwordResetRequestRoute` (auth routes file, lines 333–387): look
the email up; unknown email → generic success body; known email →
insert a reset ticket with a 1-hour expiry and return the generic
message plus the `resetToken` field. Oracles: `rtok` (random token),
`rid` (fresh ticket row id). -/
def passwordResetRequestRoute (db : Db) (email : String) (now : Nat)
    (rtok : String) (rid : Nat) : ResetRequestResponse × Db :=
  match db.users.find? (fun u => u.email == email) with
  | none =>
    ({ success := true,
       message := "If the email exists, a password reset link has been sent",
       resetToken := none }, db)
  | some user =>
    let ticket : ResetRow :=
      { id := rid, userId := user.id, token := rtok,
        expiresAt := now + 60 * 60, usedAt := none }
    ({ success := true,
       message := "If the email exists, a password reset link has been sent",
       resetToken := some rtok },
     { db with passwordResets := db.passwordResets ++ [ticket] })

/-- The HTTP 200 body of `passwordResetRoute`. -/
structure ResetResponse where
  success : Bool
  message : String
deriving DecidableEq, Repr

/-- `passwordResetRoute` (auth routes file, lines 392–458): find the
first ticket matching the token with a future expiry; absent or already
used → 400. Otherwise hash the new password, update the owning user's
digest and `updatedAt`, mark the ticket used (update by ticket id), and
delete every session row of that user. Oracle: `salt` (bcrypt). -/
def passwordResetRoute (db : Db) (token newPassword : String) (now : Nat)
    (salt : Nat) : Except AuthError ResetResponse × Db :=
  match db.passwordResets.find?
      (fun r => r.token == token && decide (now < r.expiresAt)) with
  | none => (.error (.httpEx 400 "Invalid or expired reset token"), db)
  | some reset =>
    if reset.usedAt.isSome then
      (.error (.httpEx 400 "Invalid or expired reset token"), db)
    else
      let passwordHash := hashPassword newPassword salt
      (.ok { success := true, message := "Password reset successful" },
       { db with
           users := db.users.map (fun u =>
             if u.id == reset.userId then
               { u with passwordHash := passwordHash, updatedAt := now }
             else u),
           passwordResets := db.passwordResets.map (fun r =>
             if r.id == reset.id then { r with usedAt := some now } else r),
           sessions := db.sessions.filter (fun s => ¬ s.userId == reset.userId) })

/-- The user object in `meRoute`'s 200 body. -/
structure MeUserView where
  id : String
  email : String
  firstName : String
  lastName : String
  avatar : Option String
  type : UserType
  emailVerified : Bool
  createdAt : Nat
  lastLoginAt : Option Nat
deriving DecidableEq, Repr

/-- The HTTP 200 body of `meRoute`. -/
structure MeSuccess where
  success : Bool
  user : MeUserView
deriving DecidableEq, Repr

/-- `meRoute` (auth routes file, lines 463–529): require a bearer token;
verify it cryptographically (failure caught as 401); require
`tokenType = 'access'`; look the user up by the claim's id (no
soft-delete filter and no session-table lookup in this route) and
return the profile. -/
def meRoute (db : Db) (bearer : Option Jwt) (secret : String) (now : Nat) :
    Except AuthError MeSuccess :=
  match bearer with
  | none => .error (.httpEx 401 "Authentication required")
  | some token =>
    match verifyToken token secret now with
    | none => .error (.httpEx 401 "Invalid or expired token")
    | some payload =>
      if payload.tokenType ≠ .access then
        .error (.httpEx 401 "Invalid token type")
      else
        match db.users.find? (fun u => u.id == payload.userId) with
        | none => .error (.httpEx 404 "User not found")
        | some user =>
          .ok { success := true,
                user := { id := user.id, email := user.email,
                          firstName := user.firstName, lastName := user.lastName,
                          avatar := user.avatar, type := user.type,
                          emailVerified := user.emailVerified,
                          createdAt := user.createdAt,
                          lastLoginAt := user.lastLoginAt } }

/-- The session-store `findActive` of spec §4.3, as implemented by the
query inside `sessionMiddleware` (`src/middleware/auth.ts` lines
103–115): the first session row whose token matches and whose
`expiresAt` is strictly in the future. -/
def findActive (db : Db) (token : Jwt) (now : Nat) : Option SessionRow :=
  db.sessions.find? (fun s => s.token == token && decide (now < s.expiresAt))

/-- `sessionMiddleware` (`src/middleware/auth.ts` lines 89–136), the
strict session-validation path: require a bearer token, require an
unexpired session row for it, and admit with the owning user id. -/
def sessionMiddleware (db : Db) (bearer : Option Jwt) (now : Nat) :
    Except AuthError String :=
  match bearer with
  | none => .error (.httpEx 401 "Authentication required")
  | some token =>
    match findActive db token now with
    | none => .error (.httpEx 401 "Session not found or expired")
    | some session => .ok session.userId

/-! ## Concrete fixtures for witnesses and counterexamples -/

/-- A sample signing secret. -/
def sampleSecret : String := "topsecret"

/-- A sample access-token claim set. -/
def alicePayload : UserJWTPayload :=
  { userId := "u1", email := "alice@example.com", type := .personal,
    tokenType := .access, iat := 0, exp := 900 }

/-- A sample registered account row (password `Sup3r$ecret!`). -/
def aliceRow : UserRow :=
  { id := "u1", email := "alice@example.com",
    passwordHash := hashPassword "Sup3r$ecret!" 7,
    firstName := "Alice", lastName := "W", type := .personal,
    emailVerified := false, avatar := none, createdAt := 0, updatedAt := 0,
    lastLoginAt := none, deletedAt := none }

/-- A store holding exactly the sample account. -/
def dbAlice : Db := { users := [aliceRow], sessions := [], passwordResets := [] }

/-! ## Claims -/

/-- C7: every token the codec signs has `iat = now` and
`exp = now + ttl`, with ttl exactly 900 seconds for access-purpose
tokens and exactly 604800 seconds for refresh-purpose tokens. -/
theorem c7_sign_sets_iat_now_and_exp_now_plus_ttl
    (userId email : String) (ty : UserType) (secret : String) (now : Nat) :
    (generateAccessToken userId email ty secret now).payload.tokenType = .access ∧
    (generateAccessToken userId email ty secret now).payload.iat = now ∧
    (generateAccessToken userId email ty secret now).payload.exp = now + 900 ∧
    ACCESS_TOKEN_EXPIRES_IN = 60 * 15 ∧
    (generateRefreshToken userId email ty secret now).payload.tokenType = .refresh ∧
    (generateRefreshToken userId email ty secret now).payload.iat = now ∧
    (generateRefreshToken userId email ty secret now).payload.exp = now + 604800 ∧
    REFRESH_TOKEN_EXPIRES_IN = 60 * 60 * 24 * 7 := by
  refine ⟨rfl, rfl, ?_, rfl, rfl, rfl, ?_, rfl⟩ <;>
    simp [generateAccessToken, generateRefreshToken, signJwt,
      ACCESS_TOKEN_EXPIRES_IN, REFRESH_TOKEN_EXPIRES_IN]

/-- C6: verifying a token signed with a secret, using that same secret,
returns exactly the signed claim set (round trip, at any time at which
the claims are not yet expired), and verifying it with any other secret
fails. -/
theorem c6_sign_verify_roundtrip_and_wrong_secret_fails
    (p : UserJWTPayload) (s₁ s₂ : String) (now : Nat)
    (hexp : ¬ p.exp < now) (hne : s₁ ≠ s₂) :
    verifyToken (signJwt p s₁) s₁ now = some p ∧
    verifyToken (signJwt p s₁) s₂ now = none := by
  constructor
  · simp [verifyToken, signJwt, hexp]
  · simp [verifyToken, signJwt, hmacTag, Prod.ext_iff, hne]

/-- Witness for C6 at the sample claim set with secrets `topsecret` and
`other`, verification time 0. -/
theorem c6_witness :
    verifyToken (signJwt alicePayload sampleSecret) sampleSecret 0 = some alicePayload ∧
    verifyToken (signJwt alicePayload sampleSecret) "other" 0 = none :=
  c6_sign_verify_roundtrip_and_wrong_secret_fails alicePayload sampleSecret "other" 0
    (by decide) (by decide)

/-- An empty store. -/
def dbEmpty : Db := { users := [], sessions := [], passwordResets := [] }

/-- C3: every successful registration returns, alongside the account
view and the token pair, the plaintext verification token generated for
the account, in the 201 body's `verificationToken` field. -/
theorem c3_register_discloses_verification_token
    (db : Db) (email password firstName lastName : String) (ty : UserType)
    (secret : String) (now : Nat) (newId : String) (salt : Nat) (vtok : String)
    (r : RegisterSuccess)
    (h : (registerRoute db email password firstName lastName ty secret now
            newId salt vtok).1 = .ok r) :
    r.status = 201 ∧ r.verificationToken = vtok ∧
    r.accessToken = generateAccessToken newId email ty secret now ∧
    r.refreshToken = generateRefreshToken newId email ty secret now ∧
    r.user = { id := newId, email := email, firstName := firstName,
               lastName := lastName, type := ty, createdAt := now } := by
  unfold registerRoute at h
  cases hfind : db.users.find? (fun u => u.email == email) with
  | some u => rw [hfind] at h; simp at h
  | none =>
    rw [hfind] at h
    simp [generateTokenPair] at h
    simp [← h, generateTokenPair]

/-- The 201 body produced by the concrete registration in C3's witness. -/
def c3resp : RegisterSuccess :=
  { status := 201, message := "User registered successfully",
    user := { id := "u1", email := "alice@example.com", firstName := "Alice",
              lastName := "W", type := .personal, createdAt := 100 },
    accessToken := generateAccessToken "u1" "alice@example.com" .personal sampleSecret 100,
    refreshToken := generateRefreshToken "u1" "alice@example.com" .personal sampleSecret 100,
    verificationToken := "vtok99" }

/-- Witness for C3 at a concrete registration on the empty store. -/
theorem c3_witness :
    c3resp.status = 201 ∧ c3resp.verificationToken = "vtok99" ∧
    c3resp.accessToken = generateAccessToken "u1" "alice@example.com" .personal sampleSecret 100 ∧
    c3resp.refreshToken = generateRefreshToken "u1" "alice@example.com" .personal sampleSecret 100 ∧
    c3resp.user = { id := "u1", email := "alice@example.com", firstName := "Alice",
                    lastName := "W", type := .personal, createdAt := 100 } :=
  c3_register_discloses_verification_token dbEmpty "alice@example.com" "Sup3r$ecret!"
    "Alice" "W" .personal sampleSecret 100 "u1" 7 "vtok99" c3resp (by rfl)

/-- C5: a login with an existing live account but a wrong password and a
login with an email matching no account produce the same HTTP 401 error
with the identical `Invalid email or password` body. -/
theorem c5_login_error_bodies_identical
    (db : Db) (e₁ pw₁ e₂ pw₂ secret : String) (now : Nat) (u : UserRow)
    (h₁ : db.users.find? (fun x => x.email == e₁) = some u)
    (h₂ : u.deletedAt = none)
    (h₃ : verifyPassword pw₁ u.passwordHash = false)
    (h₄ : db.users.find? (fun x => x.email == e₂) = none) :
    (loginRoute db e₁ pw₁ secret now).1 = .error (.httpEx 401 "Invalid email or password") ∧
    (loginRoute db e₂ pw₂ secret now).1 = .error (.httpEx 401 "Invalid email or password") ∧
    (loginRoute db e₁ pw₁ secret now).1 = (loginRoute db e₂ pw₂ secret now).1 := by
  have ha : (loginRoute db e₁ pw₁ secret now).1
      = .error (.httpEx 401 "Invalid email or password") := by
    unfold loginRoute
    rw [h₁]
    simp [h₂, h₃]
  have hb : (loginRoute db e₂ pw₂ secret now).1
      = .error (.httpEx 401 "Invalid email or password") := by
    unfold loginRoute
    rw [h₄]
  exact ⟨ha, hb, ha.trans hb.symm⟩

/-- Witness for C5: wrong password for the sample account versus an
unknown email, on the sample store. -/
theorem c5_witness :
    (loginRoute dbAlice "alice@example.com" "wrong" sampleSecret 50).1
      = .error (.httpEx 401 "Invalid email or password") ∧
    (loginRoute dbAlice "bob@example.com" "whatever" sampleSecret 50).1
      = .error (.httpEx 401 "Invalid email or password") ∧
    (loginRoute dbAlice "alice@example.com" "wrong" sampleSecret 50).1
      = (loginRoute dbAlice "bob@example.com" "whatever" sampleSecret 50).1 :=
  c5_login_error_bodies_identical dbAlice "alice@example.com" "wrong"
    "bob@example.com" "whatever" sampleSecret 50 aliceRow
    (by decide) (by decide) (by decide) (by decide)

/-- C8: when every session row for a token has an expiry in the past —
in particular when such a row still physically exists in the table —
`findActive` returns none and the strict session-validation middleware
rejects the request with 401. -/
theorem c8_expired_session_row_rejected
    (db : Db) (t : Jwt) (now : Nat) (s : SessionRow)
    (_hs : s ∈ db.sessions) (_hts : s.token = t) (_hexp : s.expiresAt < now)
    (hall : ∀ s' ∈ db.sessions, s'.token = t → s'.expiresAt < now) :
    findActive db t now = none ∧
    sessionMiddleware db (some t) now
      = .error (.httpEx 401 "Session not found or expired") := by
  have hnone : findActive db t now = none := by
    unfold findActive
    rw [List.find?_eq_none]
    intro x hx
    simp only [Bool.and_eq_true, beq_iff_eq, decide_eq_true_eq, not_and]
    intro hxt
    have := hall x hx hxt
    omega
  exact ⟨hnone, by simp [sessionMiddleware, hnone]⟩

/-- A session row for the sample access token, already expired at the
sample validation time. -/
def expiredSession : SessionRow :=
  { userId := "u1", token := signJwt alicePayload sampleSecret, expiresAt := 10 }

/-- A store holding the sample account and the expired session row. -/
def dbExpired : Db :=
  { users := [aliceRow], sessions := [expiredSession], passwordResets := [] }

/-- Witness for C8: the expired row exists, yet lookup at time 100
yields none and the middleware answers 401. -/
theorem c8_witness :
    findActive dbExpired (signJwt alicePayload sampleSecret) 100 = none ∧
    sessionMiddleware dbExpired (some (signJwt alicePayload sampleSecret)) 100
      = .error (.httpEx 401 "Session not found or expired") :=
  c8_expired_session_row_rejected dbExpired (signJwt alicePayload sampleSecret)
    100 expiredSession (by decide) (by decide) (by decide) (by decide)

/-- C10: a failed login (unknown email, soft-deleted account, or wrong
password) leaves the store exactly as it was — no session inserted, no
last-login change — and a successful login implies the password
verified against the found live account. -/
theorem c10_failed_login_leaves_state_unchanged
    (db : Db) (email password secret : String) (now : Nat) :
    (∀ e, (loginRoute db email password secret now).1 = .error e →
       (loginRoute db email password secret now).2 = db) ∧
    (∀ r, (loginRoute db email password secret now).1 = .ok r →
       ∃ u, db.users.find? (fun x => x.email == email) = some u ∧
            u.deletedAt = none ∧ verifyPassword password u.passwordHash = true) := by
  cases hf : db.users.find? (fun x => x.email == email) with
  | none =>
    constructor
    · intro e _; simp [loginRoute, hf]
    · intro r hr; simp [loginRoute, hf] at hr
  | some u =>
    by_cases hd : u.deletedAt.isSome
    · constructor
      · intro e _; simp [loginRoute, hf, hd]
      · intro r hr; simp [loginRoute, hf, hd] at hr
    · by_cases hv : verifyPassword password u.passwordHash = true
      · constructor
        · intro e he; simp [loginRoute, hf, hd, hv] at he
        · intro r _
          exact ⟨u, rfl, Option.not_isSome_iff_eq_none.mp hd, hv⟩
      · constructor
        · intro e _; simp [loginRoute, hf, hd, hv]
        · intro r hr; simp [loginRoute, hf, hd, hv] at hr

/-- Witness for C10: a wrong-password login against the sample store
changes nothing. -/
theorem c10_witness :
    (loginRoute dbAlice "alice@example.com" "wrong" sampleSecret 50).2 = dbAlice :=
  (c10_failed_login_leaves_state_unchanged dbAlice "alice@example.com" "wrong"
    sampleSecret 50).1 (.httpEx 401 "Invalid email or password") (by rfl)

/-- C9: a successful token refresh appends exactly one session row —
the one for the newly issued access token, with the 15-minute expiry —
and leaves every pre-existing session row, the users table and the
reset-ticket table untouched; nothing is deleted or revoked. -/
theorem c9_refresh_appends_one_session_preserves_rest
    (db : Db) (rt : Jwt) (secret : String) (now : Nat) (r : RefreshSuccess)
    (h : (refreshTokenRoute db rt secret now).1 = .ok r) :
    (refreshTokenRoute db rt secret now).2.users = db.users ∧
    (refreshTokenRoute db rt secret now).2.passwordResets = db.passwordResets ∧
    (refreshTokenRoute db rt secret now).2.sessions
      = db.sessions ++
        [{ userId := r.accessToken.payload.userId, token := r.accessToken,
           expiresAt := now + 15 * 60 }] := by
  cases hv : verifyToken rt secret now with
  | none => simp [refreshTokenRoute, hv] at h
  | some p =>
    by_cases htt : p.tokenType = .refresh
    · cases hfind : db.users.find? (fun u => u.id == p.userId) with
      | none => simp [refreshTokenRoute, hv, htt, hfind] at h
      | some user =>
        by_cases hd : user.deletedAt.isSome = true
        · simp [refreshTokenRoute, hv, htt, hfind, hd] at h
        · simp only [refreshTokenRoute, hv, htt, hfind, hd] at h ⊢
          simp at h
          subst h
          refine ⟨rfl, rfl, ?_⟩
          simp [generateTokenPair, generateAccessToken, signJwt]
    · simp [refreshTokenRoute, hv, htt] at h

/-- The 200 body produced by the concrete refresh in C9's witness. -/
def c9resp : RefreshSuccess :=
  { accessToken := generateAccessToken "u1" "alice@example.com" .personal sampleSecret 50,
    refreshToken := generateRefreshToken "u1" "alice@example.com" .personal sampleSecret 50 }

/-- Witness for C9 at a concrete successful refresh on the sample
store. -/
theorem c9_witness :
    (refreshTokenRoute dbAlice
        (generateRefreshToken "u1" "alice@example.com" .personal sampleSecret 0)
        sampleSecret 50).2.users = dbAlice.users ∧
    (refreshTokenRoute dbAlice
        (generateRefreshToken "u1" "alice@example.com" .personal sampleSecret 0)
        sampleSecret 50).2.passwordResets = dbAlice.passwordResets ∧
    (refreshTokenRoute dbAlice
        (generateRefreshToken "u1" "alice@example.com" .personal sampleSecret 0)
        sampleSecret 50).2.sessions
      = dbAlice.sessions ++
        [{ userId := c9resp.accessToken.payload.userId, token := c9resp.accessToken,
           expiresAt := 50 + 15 * 60 }] :=
  c9_refresh_appends_one_session_preserves_rest dbAlice
    (generateRefreshToken "u1" "alice@example.com" .personal sampleSecret 0)
    sampleSecret 50 c9resp (by rfl)

/-- C2 counterexample: on a store containing only `alice@example.com`,
the reset-request response for the existing email carries the plaintext
`resetToken` field while the response for an unknown email does not, so
the two response bodies are observably different. -/
theorem c2_counterexample :
    (passwordResetRequestRoute dbAlice "alice@example.com" 0 "rtok" 1).1
      ≠ (passwordResetRequestRoute dbAlice "bob@example.com" 0 "rtok" 1).1 := by
  decide

/-- C2 amended: both reset-request calls return the same success flag
and the same generic message, but the body for an existing email
additionally carries the plaintext `resetToken` field (marked `Remove
in production` in the source) while the body for an unknown email does
not. -/
theorem c2_amended_same_status_message_but_token_field
    (db : Db) (e₁ e₂ : String) (now : Nat) (rtok : String) (rid : Nat) (u : UserRow)
    (h₁ : db.users.find? (fun x => x.email == e₁) = some u)
    (h₂ : db.users.find? (fun x => x.email == e₂) = none) :
    (passwordResetRequestRoute db e₁ now rtok rid).1.success
      = (passwordResetRequestRoute db e₂ now rtok rid).1.success ∧
    (passwordResetRequestRoute db e₁ now rtok rid).1.message
      = (passwordResetRequestRoute db e₂ now rtok rid).1.message ∧
    (passwordResetRequestRoute db e₁ now rtok rid).1.resetToken = some rtok ∧
    (passwordResetRequestRoute db e₂ now rtok rid).1.resetToken = none := by
  simp [passwordResetRequestRoute, h₁, h₂]

/-- Witness for the amended C2 on the sample store. -/
theorem c2_witness :
    (passwordResetRequestRoute dbAlice "alice@example.com" 0 "rtok" 1).1.success
      = (passwordResetRequestRoute dbAlice "bob@example.com" 0 "rtok" 1).1.success ∧
    (passwordResetRequestRoute dbAlice "alice@example.com" 0 "rtok" 1).1.message
      = (passwordResetRequestRoute dbAlice "bob@example.com" 0 "rtok" 1).1.message ∧
    (passwordResetRequestRoute dbAlice "alice@example.com" 0 "rtok" 1).1.resetToken
      = some "rtok" ∧
    (passwordResetRequestRoute dbAlice "bob@example.com" 0 "rtok" 1).1.resetToken
      = none :=
  c2_amended_same_status_message_but_token_field dbAlice "alice@example.com"
    "bob@example.com" 0 "rtok" 1 aliceRow (by rfl) (by rfl)

/-- The access token issued by the concrete registration in the C1
scenario. -/
def c1tok : Jwt := generateAccessToken "u1" "alice@example.com" .personal sampleSecret 100

/-- The 201 body of the concrete registration in the C1 scenario. -/
def c1reg : RegisterSuccess :=
  { status := 201, message := "User registered successfully",
    user := { id := "u1", email := "alice@example.com", firstName := "Alice",
              lastName := "W", type := .personal, createdAt := 100 },
    accessToken := c1tok,
    refreshToken := generateRefreshToken "u1" "alice@example.com" .personal sampleSecret 100,
    verificationToken := "vtok" }

/-- The store after the concrete registration in the C1 scenario. -/
def c1db1 : Db :=
  (registerRoute dbEmpty "alice@example.com" "Sup3r$ecret!" "Alice" "W" .personal
    sampleSecret 100 "u1" 7 "vtok").2

/-- The store after the subsequent logout in the C1 scenario. -/
def c1db2 : Db := (logoutRoute c1db1 (some c1tok)).2

/-- The 200 body of the `/auth/me` calls in the C1 scenario. -/
def c1me : MeSuccess :=
  { success := true,
    user := { id := "u1", email := "alice@example.com", firstName := "Alice",
              lastName := "W", avatar := none, type := .personal,
              emailVerified := false, createdAt := 100, lastLoginAt := none } }

/-- C1 counterexample: register succeeds (201, access token issued),
`/auth/me` with the token succeeds, logout succeeds — and the second
`/auth/me` with the same still-unexpired token again returns the 200
profile body, not the 401 the claim asserts: `meRoute` never consults
the session table. -/
theorem c1_counterexample :
    (registerRoute dbEmpty "alice@example.com" "Sup3r$ecret!" "Alice" "W" .personal
        sampleSecret 100 "u1" 7 "vtok").1 = .ok c1reg ∧
    c1reg.status = 201 ∧
    meRoute c1db1 (some c1tok) sampleSecret 100 = .ok c1me ∧
    (logoutRoute c1db1 (some c1tok)).1
      = { success := true, message := "Logout successful" } ∧
    meRoute c1db2 (some c1tok) sampleSecret 100 = .ok c1me := by
  exact ⟨rfl, rfl, rfl, rfl, rfl⟩

/-- C1 amended: after logout the token's session row is gone, so the
session store's `findActive` no longer resolves it and the strict
session-validation middleware rejects it with 401; the `/auth/me`
route itself is unaffected by logout, since it never reads the session
table. -/
theorem c1_amended_logout_invalidates_strict_path
    (db : Db) (t : Jwt) (secret : String) (now : Nat) (b : Option Jwt) :
    findActive (logoutRoute db (some t)).2 t now = none ∧
    sessionMiddleware (logoutRoute db (some t)).2 (some t) now
      = .error (.httpEx 401 "Session not found or expired") ∧
    meRoute (logoutRoute db (some t)).2 b secret now = meRoute db b secret now := by
  have hnone : findActive (logoutRoute db (some t)).2 t now = none := by
    unfold findActive
    rw [List.find?_eq_none]
    intro x hx
    unfold logoutRoute at hx
    simp only [List.mem_filter] at hx
    simp only [Bool.and_eq_true, beq_iff_eq, decide_eq_true_eq, not_and]
    intro hxt
    simp [hxt] at hx
  refine ⟨hnone, by simp [sessionMiddleware, hnone], ?_⟩
  cases b with
  | none => rfl
  | some tok => rfl

/-- C4: a reset ticket is consumed exactly once. If a password reset
with a token succeeds, then any later reset presenting the same token —
at any time, in particular before the ticket's time-based expiry —
fails with HTTP 400 `Invalid or expired reset token`. Token uniqueness
(the `password_resets.token` unique column constraint) is the
hypothesis `huniq`. -/
theorem c4_reset_ticket_consumed_exactly_once
    (db : Db) (token np₁ np₂ : String) (now₁ now₂ salt₁ salt₂ : Nat)
    (r : ResetResponse)
    (huniq : ∀ t₁ ∈ db.passwordResets, ∀ t₂ ∈ db.passwordResets,
        t₁.token = token → t₂.token = token → t₁ = t₂)
    (h : (passwordResetRoute db token np₁ now₁ salt₁).1 = .ok r) :
    (passwordResetRoute (passwordResetRoute db token np₁ now₁ salt₁).2
        token np₂ now₂ salt₂).1
      = .error (.httpEx 400 "Invalid or expired reset token") := by
  cases hf : db.passwordResets.find?
      (fun x => x.token == token && decide (now₁ < x.expiresAt)) with
  | none => simp [passwordResetRoute, hf] at h
  | some T =>
    by_cases hu : T.usedAt.isSome = true
    · simp [passwordResetRoute, hf, hu] at h
    · have hT_mem : T ∈ db.passwordResets := List.mem_of_find?_eq_some hf
      have hT_tok : T.token = token := by
        have hp := List.find?_some hf
        simp only [Bool.and_eq_true, beq_iff_eq, decide_eq_true_eq] at hp
        exact hp.1
      set db1 := (passwordResetRoute db token np₁ now₁ salt₁).2 with hdb1
      have hsnd : db1.passwordResets
          = db.passwordResets.map
              (fun x => if x.id == T.id then { x with usedAt := some now₁ } else x) := by
        rw [hdb1]
        simp [passwordResetRoute, hf, hu]
      cases hf2 : db1.passwordResets.find?
          (fun x => x.token == token && decide (now₂ < x.expiresAt)) with
      | none => simp [passwordResetRoute, hf2]
      | some T' =>
        have hT'_mem : T' ∈ db1.passwordResets :=
          List.mem_of_find?_eq_some hf2
        have hT'_tok : T'.token = token := by
          have hp := List.find?_some hf2
          simp only [Bool.and_eq_true, beq_iff_eq, decide_eq_true_eq] at hp
          exact hp.1
        rw [hsnd] at hT'_mem
        obtain ⟨T₀, hT₀_mem, hT₀_eq⟩ := List.mem_map.mp hT'_mem
        by_cases hid : (T₀.id == T.id) = true
        · rw [if_pos hid] at hT₀_eq
          have hused : T'.usedAt = some now₁ := by rw [← hT₀_eq]
          simp [passwordResetRoute, hf2, hused]
        · rw [if_neg hid] at hT₀_eq
          have hT₀_tok : T₀.token = token := by rw [hT₀_eq]; exact hT'_tok
          have heq : T₀ = T := huniq T₀ hT₀_mem T hT_mem hT₀_tok hT_tok
          rw [heq] at hid
          simp at hid

/-- A fresh, unexpired, unused reset ticket for the sample account. -/
def resetTicket : ResetRow :=
  { id := 1, userId := "u1", token := "rsttok", expiresAt := 1000, usedAt := none }

/-- A store holding the sample account and the fresh reset ticket. -/
def dbReset : Db :=
  { users := [aliceRow], sessions := [], passwordResets := [resetTicket] }

/-- Witness for C4: after a successful reset at time 10, a second reset
with the same token at time 20 — well before the ticket's expiry at
1000 — fails with 400. -/
theorem c4_witness :
    (passwordResetRoute (passwordResetRoute dbReset "rsttok" "NewPw1!" 10 3).2
        "rsttok" "NewPw2!" 20 4).1
      = .error (.httpEx 400 "Invalid or expired reset token") :=
  c4_reset_ticket_consumed_exactly_once dbReset "rsttok" "NewPw1!" "NewPw2!"
    10 20 3 4 { success := true, message := "Password reset successful" }
    (by decide) (by rfl)
